import Mathlib

/-!
Verification development for the ABG-READER repository.

The file embeds, shallowly, the parts of src/app.py that the verified
properties concern: the normal-range table and display flagging, the
manual-entry widget bounds and the manual-entry value dictionary, and the
text-extraction function.  The deterministic acid-base interpretation
engine (validator, derived-quantity calculator, classifier, composer) is
described by the specification but absent from src/app.py, which delegates
that analysis to an external model call; definitions whose doc comment
starts with "Modelled from the spec:" embed those components from the
specification text.  All numeric values are rationals.
-/

namespace ABG

/-- Normal range table translated from src/app.py lines 64-74: a fixed
mapping from analyte name to a (low, high) pair of bounds. -/
def NORMAL_RANGES : List (String × ℚ × ℚ) :=
  [("pH", 7.35, 7.45), ("pCO2", 4.5, 6.0), ("HCO3", 22, 28), ("pO2", 11, 13),
   ("base_excess", -2, 2), ("Na", 135, 145), ("Cl", 98, 107), ("K", 3.5, 5.0),
   ("albumin", 35, 50)]

/-- Display flagging translated from src/app.py lines 339-346: a displayed
value is flagged as normal when its key is absent from the normal range
table, or when it lies within the looked-up (low, high) bounds. -/
def displayIsNormal (key : String) (v : ℚ) : Bool :=
  match List.lookup key NORMAL_RANGES with
  | some b => decide (b.1 ≤ v ∧ v ≤ b.2)
  | none => true

/-- Absolute plausibility bounds per analyte, translated from the number
input widget limits in src/app.py lines 295-316; the specification names
the same bounds for pH and pCO2 as its examples of plausibility bounds
(section 4.1). -/
def PLAUSIBILITY_BOUNDS : List (String × ℚ × ℚ) :=
  [("pH", 6.8, 7.8), ("pCO2", 2.0, 12.0), ("HCO3", 10, 45), ("pO2", 5, 20),
   ("base_excess", -20, 20), ("Na", 120, 160), ("Cl", 80, 120)]

/-- Entry acceptance translated from the widget limits in src/app.py lines
295-316: a value can be entered for a key only when the key has an entry
widget and the value lies within the widget limits. -/
def entryAccepts (key : String) (v : ℚ) : Bool :=
  match List.lookup key PLAUSIBILITY_BOUNDS with
  | some b => decide (b.1 ≤ v ∧ v ≤ b.2)
  | none => false

/-- Containment check comparing the two tables: a plausibility entry is
within bounds when the corresponding normal range exists and is contained
in the plausibility interval. -/
def boundWithin (b : String × ℚ × ℚ) : Bool :=
  match List.lookup b.1 NORMAL_RANGES with
  | some nb => decide (b.2.1 ≤ nb.1 ∧ nb.2 ≤ b.2.2)
  | none => false

/-- Manual-entry value dictionary translated from src/app.py lines
318-327: the seven key-value pairs stored in session state when the user
confirms manual entry. -/
def manualEntryValues (pH pCO2 HCO3 pO2 base_excess Na Cl : ℚ) :
    List (String × ℚ) :=
  [("pH", pH), ("pCO2", pCO2), ("HCO3", HCO3), ("pO2", pO2),
   ("base_excess", base_excess), ("Na", Na), ("Cl", Cl)]

/-- Dictionary of extracted analyte values, as returned by the
text-extraction function. -/
abbrev ExtractedDict := List (String × Option ℚ)

/-- Outcome of the external model call inside the text-extraction
function: either a response text, or an exception carrying a message. -/
inductive ApiOutcome
  | ok (response_text : String)
  | exn (message : String)
  deriving DecidableEq, Repr

/-- Opening brace character, written by code point. -/
def openBraceChar : Char := Char.ofNat 123

/-- Closing brace character, written by code point. -/
def closeBraceChar : Char := Char.ofNat 125

/-- Characters of a brace interior after its first character: every
character up to, and excluding, the first closing brace; fails when no
closing brace follows. -/
def braceTail : List Char → Option (List Char)
  | [] => none
  | c :: rest =>
    if c = closeBraceChar then some []
    else Option.map (fun t => c :: t) (braceTail rest)

/-- Interior of a brace match starting right after an opening brace: one
or more characters other than the closing brace, then the closing brace;
translated from the regex pattern in src/app.py line 112. -/
def braceBody : List Char → Option (List Char)
  | [] => none
  | c :: rest =>
    if c = closeBraceChar then none
    else Option.map (fun t => c :: t) (braceTail rest)

/-- Leftmost match of an opening brace, one or more characters other than
the closing brace, and a closing brace; translated from the re.search call
in src/app.py line 112. -/
def findJsonMatch : List Char → Option (List Char)
  | [] => none
  | c :: rest =>
    if c = openBraceChar then
      match braceBody rest with
      | some body => some (openBraceChar :: (body ++ [closeBraceChar]))
      | none => findJsonMatch rest
    else findJsonMatch rest

/-- String form of the regex search in src/app.py line 112. -/
def jsonSearch (s : String) : Option String :=
  Option.map (fun l => String.mk l) (findJsonMatch s.data)

/-- Text-extraction function translated from src/app.py lines 76-118.  The
external model call is represented by its outcome and JSON parsing by an
explicit parsing function; an exception anywhere inside the try block, and
a response with no brace-delimited substring, both yield the empty
dictionary, mirroring the except branch and the fall-through return. -/
def extract_values_from_text (outcome : ApiOutcome)
    (jsonLoads : String → Except String ExtractedDict) : ExtractedDict :=
  match outcome with
  | ApiOutcome.exn _ => []
  | ApiOutcome.ok t =>
    match jsonSearch t with
    | none => []
    | some s =>
      match jsonLoads s with
      | Except.error _ => []
      | Except.ok d => d

/-- Modelled from the spec: the Value Panel of section 3 — nine optional
analyte fields, each nullable individually; src/app.py keeps these only as
an untyped session dictionary. -/
structure Panel where
  pH : Option ℚ
  pCO2 : Option ℚ
  HCO3 : Option ℚ
  pO2 : Option ℚ
  base_excess : Option ℚ
  Na : Option ℚ
  Cl : Option ℚ
  K : Option ℚ
  albumin : Option ℚ
  deriving DecidableEq, Repr

/-- Modelled from the spec: name-based field access used by the validator
contract of section 6, mapping analyte names to panel fields. -/
def fieldValue (p : Panel) (name : String) : Option ℚ :=
  if name = "pH" then p.pH
  else if name = "pCO2" then p.pCO2
  else if name = "HCO3" then p.HCO3
  else if name = "pO2" then p.pO2
  else if name = "base_excess" then p.base_excess
  else if name = "Na" then p.Na
  else if name = "Cl" then p.Cl
  else if name = "K" then p.K
  else if name = "albumin" then p.albumin
  else none

/-- Modelled from the spec: the OutOfBoundsError of section 7, naming the
offending field, the violated bound and the offending value. -/
structure OutOfBoundsError where
  field : String
  low : ℚ
  high : ℚ
  value : ℚ
  deriving DecidableEq, Repr

/-- Modelled from the spec: the per-field plausibility check of section
4.1 — a missing value passes, a present value must lie within the bound,
and a violation is reported with field name and bound. -/
def checkBound (name : String) (low high : ℚ) (v : Option ℚ) :
    Except OutOfBoundsError Unit :=
  match v with
  | none => Except.ok ()
  | some x =>
    if low ≤ x ∧ x ≤ high then Except.ok ()
    else Except.error ⟨name, low, high, x⟩

/-- Modelled from the spec: the validator loop of section 4.1, checking
each bounded field of the panel in a fixed order. -/
def validateFields (p : Panel) :
    List (String × ℚ × ℚ) → Except OutOfBoundsError Unit
  | [] => Except.ok ()
  | b :: rest =>
    match checkBound b.1 b.2.1 b.2.2 (fieldValue p b.1) with
    | Except.error e => Except.error e
    | Except.ok _ => validateFields p rest

/-- Modelled from the spec: validate_and_build_panel of section 6 — the
Value Panel Validator of section 4.1 is absent from src/app.py; it fails
with an OutOfBoundsError when a present value is implausible, does not
fail on missing fields, and otherwise produces the panel unchanged (no
clamping or defaulting). -/
def validate_and_build_panel (raw : Panel) : Except OutOfBoundsError Panel :=
  match validateFields raw PLAUSIBILITY_BOUNDS with
  | Except.error e => Except.error e
  | Except.ok _ => Except.ok raw

/-- Modelled from the spec: the primary disorder labels of section 3. -/
inductive Disorder
  | normal
  | respiratory_acidosis
  | respiratory_alkalosis
  | metabolic_acidosis
  | metabolic_alkalosis
  deriving DecidableEq, Repr

/-- Modelled from the spec: the outcome of the pH step of section 4.3. -/
inductive PHStatus
  | acidaemia
  | alkalaemia
  | normalPH
  deriving DecidableEq, Repr

/-- Modelled from the spec: the pH step of section 4.3 — acidaemia below
7.35, alkalaemia above 7.45, otherwise normal pH. -/
def pHStep (ph : ℚ) : PHStatus :=
  if ph < 7.35 then PHStatus.acidaemia
  else if ph > 7.45 then PHStatus.alkalaemia
  else PHStatus.normalPH

/-- Modelled from the spec: direction of deviation of a measured value
from its normal range; unknown when the value is missing. -/
inductive Deviation
  | low
  | normal
  | high
  | unknown
  deriving DecidableEq, Repr

/-- Modelled from the spec: deviation of an optional value against a
(low, high) normal range. -/
def deviationOf (lo hi : ℚ) : Option ℚ → Deviation
  | none => Deviation.unknown
  | some x =>
    if x < lo then Deviation.low
    else if x > hi then Deviation.high
    else Deviation.normal

/-- Modelled from the spec: pCO2 deviation against its normal range of
4.5 to 6.0 kPa from the normal range table. -/
def pCO2Deviation (p : Panel) : Deviation := deviationOf 4.5 6.0 p.pCO2

/-- Modelled from the spec: HCO3 deviation against its normal range of
22 to 28 mmol per litre from the normal range table. -/
def hco3Deviation (p : Panel) : Deviation := deviationOf 22 28 p.HCO3

/-- Modelled from the spec: the primary disturbance step of section 4.3.
With acidaemia, a high pCO2 classifies respiratory acidosis and a low
HCO3 metabolic acidosis, pCO2 checked first as written; with alkalaemia
symmetrically.  When both counter variables deviate towards the pH
direction the mixed-disorder candidate flag of step 2 is raised.  With
normal pH the deviations of pCO2 and HCO3 are still checked explicitly,
per the note in step 1; when neither deviates and both are measured the
panel is classified normal, and a missing measurement leaves the primary
disorder undetermined (insufficient data rather than a thrown error). -/
def primaryStep (phs : PHStatus) (dCO2 dHCO3 : Deviation) :
    Option Disorder × Bool :=
  match phs with
  | PHStatus.acidaemia =>
    match dCO2, dHCO3 with
    | Deviation.high, Deviation.low => (some Disorder.respiratory_acidosis, true)
    | Deviation.high, _ => (some Disorder.respiratory_acidosis, false)
    | _, Deviation.low => (some Disorder.metabolic_acidosis, false)
    | _, _ => (none, false)
  | PHStatus.alkalaemia =>
    match dCO2, dHCO3 with
    | Deviation.low, Deviation.high => (some Disorder.respiratory_alkalosis, true)
    | Deviation.low, _ => (some Disorder.respiratory_alkalosis, false)
    | _, Deviation.high => (some Disorder.metabolic_alkalosis, false)
    | _, _ => (none, false)
  | PHStatus.normalPH =>
    match dCO2, dHCO3 with
    | Deviation.low, _ => (some Disorder.respiratory_alkalosis, false)
    | Deviation.high, _ => (some Disorder.respiratory_acidosis, false)
    | _, Deviation.low => (some Disorder.metabolic_acidosis, false)
    | _, Deviation.high => (some Disorder.metabolic_alkalosis, false)
    | Deviation.normal, Deviation.normal => (some Disorder.normal, false)
    | _, _ => (none, false)

/-- Modelled from the spec: primary disorder and mixed-disorder candidate
flag of a panel; a missing pH leaves the primary disorder undetermined. -/
def primaryOf (p : Panel) : Option Disorder × Bool :=
  match p.pH with
  | none => (none, false)
  | some ph => primaryStep (pHStep ph) (pCO2Deviation p) (hco3Deviation p)

/-- Modelled from the spec: the anion gap of section 4.2 — Na minus the
sum of Cl and HCO3, computed only when all three are present and yielding
none (not computable) otherwise, never a default value. -/
def anionGap (p : Panel) : Option ℚ :=
  match p.Na, p.Cl, p.HCO3 with
  | some na, some cl, some h => some (na - (cl + h))
  | _, _, _ => none

/-- Modelled from the spec: the albumin-corrected anion gap of section
4.2, computed only when the anion gap and albumin are both present. -/
def correctedAnionGap (ag albumin : Option ℚ) : Option ℚ :=
  match ag, albumin with
  | some a, some alb => some (a + ((40 - alb) / 10) * 2.5)
  | _, _ => none

/-- Lower end of the normal anion gap band of section 4.2. -/
def AG_NORMAL_LOW : ℚ := 8

/-- Upper end of the normal anion gap band of section 4.2. -/
def AG_NORMAL_HIGH : ℚ := 16

/-- Modelled from the spec: anion gap category labels of section 3. -/
inductive AGCategory
  | normal
  | high
  | not_applicable
  deriving DecidableEq, Repr

/-- Modelled from the spec: anion gap classification against the normal
band — high above 16, otherwise normal, per the enumerated categories. -/
def agCategoryOf (ag : ℚ) : AGCategory :=
  if ag > AG_NORMAL_HIGH then AGCategory.high else AGCategory.normal

/-- Modelled from the spec: the anion gap step of section 4.3 — entered
only when the primary disorder is metabolic acidosis, classifying the
corrected anion gap when available and the raw anion gap otherwise. -/
def anionGapStep (primary : Option Disorder) (p : Panel) : AGCategory :=
  match primary with
  | some Disorder.metabolic_acidosis =>
    match correctedAnionGap (anionGap p) p.albumin with
    | some cag => agCategoryOf cag
    | none =>
      match anionGap p with
      | some ag => agCategoryOf ag
      | none => AGCategory.not_applicable
  | _ => AGCategory.not_applicable

/-- Modelled from the spec: expected compensation of section 4.2.  The
spec states one formula explicitly, the Winter formula equivalent for
metabolic acidosis (expected pCO2 of 1.5 times HCO3 plus 8, in mmHg
terms), converted to the kPa-consistent unit system with the fixed 7.5
divisor the source prescribes; for the other disorders the spec names no
formula, so no expected value is produced. -/
def expectedCompensation (primary : Option Disorder) (p : Panel) : Option ℚ :=
  match primary, p.HCO3 with
  | some Disorder.metabolic_acidosis, some h => some ((1.5 * h + 8) / 7.5)
  | _, _ => none

/-- Modelled from the spec: the measured counter variable of section 4.2 —
pCO2 for metabolic disorders, HCO3 for respiratory ones. -/
def measuredCounter (primary : Option Disorder) (p : Panel) : Option ℚ :=
  match primary with
  | some Disorder.metabolic_acidosis => p.pCO2
  | some Disorder.metabolic_alkalosis => p.pCO2
  | some Disorder.respiratory_acidosis => p.HCO3
  | some Disorder.respiratory_alkalosis => p.HCO3
  | _ => none

/-- Modelled from the spec: the compensation status labels of section 3. -/
inductive CompStatus
  | none_expected
  | appropriate
  | inadequate
  | excessive
  deriving DecidableEq, Repr

/-- Modelled from the spec: the compensation step of section 4.3 —
appropriate within the tolerance band around the expected value,
inadequate when the counter variable fell short of the expected drop, and
excessive when it overshot; no status is assessed without both an
expected and a measured value. -/
def compensationStep (tol : ℚ) (expected measured : Option ℚ) : CompStatus :=
  match expected, measured with
  | some e, some m =>
    if |m - e| ≤ tol then CompStatus.appropriate
    else if m > e then CompStatus.inadequate
    else CompStatus.excessive
  | _, _ => CompStatus.none_expected

/-- Modelled from the spec: the default tolerance band of section 4.3,
the formula-implied band of 2 mmHg around the Winter formula expectation,
converted to kPa with the fixed 7.5 divisor. -/
def COMP_TOLERANCE : ℚ := 2 / 7.5

/-- Modelled from the spec: the Classification Result of section 3. -/
structure ClassificationResult where
  primary : Option Disorder
  anion_gap_category : AGCategory
  compensation_status : CompStatus
  mixed_disorder_flag : Bool
  mixed_description : String
  deriving DecidableEq, Repr

/-- Modelled from the spec: the Acid-Base Classifier of section 4.3 with
an explicit tolerance band; excessive compensation always raises the
mixed-disorder flag. -/
def classifyWith (tol : ℚ) (p : Panel) : ClassificationResult :=
  let pr := primaryOf p
  let comp := compensationStep tol (expectedCompensation pr.1 p)
      (measuredCounter pr.1 p)
  let mixed := pr.2 || decide (comp = CompStatus.excessive)
  ⟨pr.1, anionGapStep pr.1 p, comp, mixed,
    if mixed then "possible mixed disorder" else "no mixed disorder suspected"⟩

/-- Modelled from the spec: the classifier at the default tolerance. -/
def classify (p : Panel) : ClassificationResult :=
  classifyWith COMP_TOLERANCE p

/-- Modelled from the spec: the alveolar oxygen tension approximation of
section 4.2, in kPa. -/
def PAO2 (pco2 : ℚ) : ℚ := 20 - pco2 * 1.2

/-- Modelled from the spec: the A-a gradient of section 4.2, computed only
when pO2 and pCO2 are both present. -/
def aaGradient (p : Panel) : Option ℚ :=
  match p.pO2, p.pCO2 with
  | some po2, some pco2 => some (PAO2 pco2 - po2)
  | _, _ => none

/-- Lower end of the normal A-a gradient band of section 4.2, in kPa. -/
def AA_NORMAL_LOW : ℚ := 2

/-- Upper end of the normal A-a gradient band of section 4.2, in kPa. -/
def AA_NORMAL_HIGH : ℚ := 4

/-- Position of a value relative to a band. -/
inductive BandFlag
  | below
  | inBand
  | above
  deriving DecidableEq, Repr

/-- Classification of a value against a (low, high) band. -/
def bandFlagOf (lo hi x : ℚ) : BandFlag :=
  if x < lo then BandFlag.below
  else if x > hi then BandFlag.above
  else BandFlag.inBand

/-- Modelled from the spec: the oxygenation step annotation of section
4.3, flagging the A-a gradient against its normal band when computable. -/
def aaGradientFlag (p : Panel) : Option BandFlag :=
  Option.map (bandFlagOf AA_NORMAL_LOW AA_NORMAL_HIGH) (aaGradient p)

/-- Modelled from the spec: the Derived Quantities value object of
section 3. -/
structure DerivedQuantities where
  anion_gap : Option ℚ
  corrected_anion_gap : Option ℚ
  expected_compensation : Option ℚ
  aa_gradient : Option ℚ
  deriving DecidableEq, Repr

/-- Modelled from the spec: the Derived Quantity Calculator of section
4.2, each quantity independently computable. -/
def computeDerived (p : Panel) (primary : Option Disorder) :
    DerivedQuantities :=
  ⟨anionGap p, correctedAnionGap (anionGap p) p.albumin,
    expectedCompensation primary p, aaGradient p⟩

/-- Modelled from the spec: the five ordered step labels emitted by the
Interpretation Composer of section 4.4. -/
def composeFindings : List String :=
  ["STEP 1: pH assessment", "STEP 2: primary disturbance",
   "STEP 3: anion gap", "STEP 4: compensation assessment",
   "STEP 5: oxygenation and A-a gradient"]

/-- Modelled from the spec: the composed interpretation result of
sections 4.4 and 6. -/
structure InterpretationResult where
  derived : DerivedQuantities
  classification : ClassificationResult
  findings : List String
  deriving DecidableEq, Repr

/-- Modelled from the spec: interpret of section 6, running the
calculator, the classifier and the composer in order, as a pure function
of the panel alone. -/
def interpret (p : Panel) : InterpretationResult :=
  let c := classify p
  ⟨computeDerived p c.primary, c, composeFindings⟩

/-- Modelled from the spec: the session state held by the surrounding
application, threaded explicitly to state that the engine neither reads
nor writes it. -/
structure SessionState where
  abg_values : Panel
  analysis_complete : Bool
  deriving DecidableEq, Repr

/-- Modelled from the spec: one call of interpret as seen by the
application — it returns the interpretation of the panel and passes the
session state through untouched (stateless engine, section 5). -/
def interpretCall (s : SessionState) (p : Panel) :
    InterpretationResult × SessionState :=
  (interpret p, s)

/-- Scenario 1 panel of the spec: pH 7.25, pCO2 5.0, HCO3 15, Na 140,
Cl 110, the rest absent. -/
def scenario1 : Panel :=
  ⟨some 7.25, some 5.0, some 15, none, none, some 140, some 110, none, none⟩

/-- Scenario 3 panel of the spec: pH 7.45, pCO2 3.0, HCO3 24, the rest
absent. -/
def scenario3 : Panel :=
  ⟨some 7.45, some 3.0, some 24, none, none, none, none, none, none⟩

/-- Scenario 5 panel of the spec: pO2 8 kPa and pCO2 6 kPa, the rest
absent. -/
def scenario5 : Panel :=
  ⟨none, some 6, none, some 8, none, none, none, none, none⟩

/-- Panel with every field absent. -/
def emptyPanel : Panel :=
  ⟨none, none, none, none, none, none, none, none, none⟩

/-- Panel whose pH of 8 lies outside the plausibility bound of 6.8 to
7.8. -/
def badPanel : Panel :=
  ⟨some 8, none, none, none, none, none, none, none, none⟩

/-- A per-field check succeeds exactly when the field is missing or its
value lies within the bound. -/
theorem checkBound_ok_iff (name : String) (low high : ℚ) (v : Option ℚ) :
    checkBound name low high v = Except.ok () ↔
      ∀ x, v = some x → low ≤ x ∧ x ≤ high := by
  cases v with
  | none => simp [checkBound]
  | some x =>
    simp only [checkBound]
    split_ifs with h
    · simp [h]
    · simp [h]

/-- A failing per-field check reports the checked field, the violated
bound and the offending value. -/
theorem checkBound_error (name : String) (low high : ℚ) (v : Option ℚ)
    (e : OutOfBoundsError) (h : checkBound name low high v = Except.error e) :
    v = some e.value ∧ e.field = name ∧ e.low = low ∧ e.high = high ∧
      ¬(low ≤ e.value ∧ e.value ≤ high) := by
  cases v with
  | none => simp [checkBound] at h
  | some x =>
    simp only [checkBound] at h
    split_ifs at h with hb
    simp only [Except.error.injEq] at h
    subst h
    exact ⟨rfl, rfl, rfl, rfl, hb⟩

/-- The validator loop succeeds exactly when every listed present field
lies within its bound. -/
theorem validateFields_ok_iff (p : Panel) (L : List (String × ℚ × ℚ)) :
    validateFields p L = Except.ok () ↔
      ∀ b ∈ L, ∀ x, fieldValue p b.1 = some x → b.2.1 ≤ x ∧ x ≤ b.2.2 := by
  induction L with
  | nil => simp [validateFields]
  | cons b rest ih =>
    cases hc : checkBound b.1 b.2.1 b.2.2 (fieldValue p b.1) with
    | error e =>
      simp only [validateFields, hc]
      constructor
      · intro h; exact absurd h (by simp)
      · intro h
        obtain ⟨hv, _, _, _, hnb⟩ := checkBound_error _ _ _ _ _ hc
        exact absurd (h b (List.mem_cons_self b rest) e.value hv) hnb
    | ok u =>
      cases u
      simp only [validateFields, hc]
      rw [ih]
      constructor
      · intro h b' hb' x hx
        rcases List.mem_cons.mp hb' with rfl | hmem
        · exact (checkBound_ok_iff b'.1 b'.2.1 b'.2.2 (fieldValue p b'.1)).mp hc x hx
        · exact h b' hmem x hx
      · intro h b' hb' x hx
        exact h b' (List.mem_cons_of_mem _ hb') x hx

/-- A failing validator loop reports a listed field whose present value
violates its bound, with the bound named in the error. -/
theorem validateFields_error (p : Panel) (L : List (String × ℚ × ℚ))
    (e : OutOfBoundsError) (h : validateFields p L = Except.error e) :
    (e.field, e.low, e.high) ∈ L ∧ fieldValue p e.field = some e.value ∧
      ¬(e.low ≤ e.value ∧ e.value ≤ e.high) := by
  induction L with
  | nil => simp [validateFields] at h
  | cons b rest ih =>
    cases hc : checkBound b.1 b.2.1 b.2.2 (fieldValue p b.1) with
    | error e' =>
      simp only [validateFields, hc, Except.error.injEq] at h
      subst h
      obtain ⟨hv, hf, hl, hh, hnb⟩ := checkBound_error _ _ _ _ _ hc
      refine ⟨?_, ?_, ?_⟩
      · have hb : (e'.field, e'.low, e'.high) = b := by rw [hf, hl, hh]
        rw [hb]
        exact List.mem_cons_self _ _
      · rw [hf]; exact hv
      · rw [hl, hh]; exact hnb
    | ok u =>
      cases u
      simp only [validateFields, hc] at h
      obtain ⟨hm, hrest⟩ := ih h
      exact ⟨List.mem_cons_of_mem _ hm, hrest⟩

/-- C1: for every panel the anion gap is computable exactly when Na, Cl
and HCO3 are all present, and then equals Na minus the sum of Cl and
HCO3; the category compares the gap against the normal band whose upper
end is 16; and the scenario panel with pH 7.25, pCO2 5.0, HCO3 15,
Na 140, Cl 110 yields an anion gap of 15 with category normal under a
primary disorder of metabolic acidosis. -/
theorem C1_anion_gap (p : Panel) :
    ((anionGap p).isSome ↔ p.Na.isSome ∧ p.Cl.isSome ∧ p.HCO3.isSome)
    ∧ (∀ na cl h, p.Na = some na → p.Cl = some cl → p.HCO3 = some h →
        anionGap p = some (na - (cl + h)))
    ∧ (∀ ag : ℚ, agCategoryOf ag = AGCategory.normal ↔ ag ≤ AG_NORMAL_HIGH)
    ∧ anionGap scenario1 = some 15
    ∧ (classify scenario1).primary = some Disorder.metabolic_acidosis
    ∧ (classify scenario1).anion_gap_category = AGCategory.normal := by
  refine ⟨?_, ?_, ?_, ?_, ?_, ?_⟩
  · cases hNa : p.Na <;> cases hCl : p.Cl <;> cases hH : p.HCO3 <;>
      simp [anionGap, hNa, hCl, hH]
  · intro na cl h h1 h2 h3
    simp [anionGap, h1, h2, h3]
  · intro ag
    unfold agCategoryOf
    split_ifs with hgt
    · constructor
      · intro hcon; simp at hcon
      · intro hle; exact absurd hgt (not_lt.mpr hle)
    · constructor
      · intro _; exact not_lt.mp hgt
      · intro _; rfl
  · norm_num [anionGap, scenario1]
  · norm_num [classify, classifyWith, primaryOf, scenario1, pHStep,
      pCO2Deviation, hco3Deviation, deviationOf, primaryStep]
  · norm_num [classify, classifyWith, primaryOf, scenario1, pHStep,
      pCO2Deviation, hco3Deviation, deviationOf, primaryStep, anionGapStep,
      anionGap, correctedAnionGap, agCategoryOf, AG_NORMAL_HIGH]

/-- Witness for C1 at the scenario panel. -/
theorem C1_anion_gap_witness :
    anionGap scenario1 = some (140 - (110 + 15)) :=
  (C1_anion_gap scenario1).2.1 140 110 15 rfl rfl rfl

/-- C2: with both inputs present the corrected anion gap equals the raw
gap plus 2.5 for every 10 below an albumin of 40; it never falls below
the raw gap for albumin under 40, equals it at albumin 40, is not
computed when either input is missing, and the scenario with raw gap 10
and albumin 20 corrects to 15. -/
theorem C2_corrected_anion_gap (ag alb : ℚ) :
    correctedAnionGap (some ag) (some alb) = some (ag + ((40 - alb) / 10) * 2.5)
    ∧ (∀ c, correctedAnionGap (some ag) (some alb) = some c →
        (alb < 40 → ag ≤ c) ∧ (alb = 40 → c = ag))
    ∧ (∀ o : Option ℚ, correctedAnionGap none o = none
        ∧ correctedAnionGap o none = none)
    ∧ correctedAnionGap (some 10) (some 20) = some 15 := by
  refine ⟨rfl, ?_, ?_, ?_⟩
  · intro c hc
    simp only [correctedAnionGap, Option.some.injEq] at hc
    subst hc
    constructor
    · intro halb; nlinarith
    · intro h40; subst h40; norm_num
  · intro o
    exact ⟨rfl, by cases o <;> rfl⟩
  · norm_num [correctedAnionGap]

/-- Witness for C2 at raw gap 10 and albumin 20. -/
theorem C2_corrected_anion_gap_witness : (10 : ℚ) ≤ 15 :=
  ((C2_corrected_anion_gap 10 20).2.1 15
    ((C2_corrected_anion_gap 10 20).2.2.2)).1 (by norm_num)

/-- C3: for every tolerance and panel, when the classifier has an
expected compensation value and a measured counter variable whose
difference exceeds the tolerance, the reported compensation status is
never appropriate. -/
theorem C3_compensation_tolerance (tol : ℚ) (p : Panel) (e m : ℚ)
    (hE : expectedCompensation (classifyWith tol p).primary p = some e)
    (hM : measuredCounter (classifyWith tol p).primary p = some m)
    (hdev : |m - e| > tol) :
    (classifyWith tol p).compensation_status ≠ CompStatus.appropriate := by
  have hc : (classifyWith tol p).compensation_status =
      compensationStep tol (expectedCompensation (classifyWith tol p).primary p)
        (measuredCounter (classifyWith tol p).primary p) := rfl
  rw [hc, hE, hM]
  simp only [compensationStep]
  split_ifs with h1 h2 <;> intro hcon
  · exact absurd hdev (not_lt.mpr h1)
  · exact CompStatus.noConfusion hcon
  · exact CompStatus.noConfusion hcon

/-- Witness for C3 at the default tolerance on the scenario panel, whose
measured pCO2 of 5 kPa is farther than the tolerance from the expected
61/15 kPa. -/
theorem C3_compensation_tolerance_witness :
    (classifyWith COMP_TOLERANCE scenario1).compensation_status ≠
      CompStatus.appropriate :=
  C3_compensation_tolerance COMP_TOLERANCE scenario1 (61 / 15) 5
    (by norm_num [classifyWith, primaryOf, scenario1, pHStep, pCO2Deviation,
      hco3Deviation, deviationOf, primaryStep, expectedCompensation])
    (by norm_num [classifyWith, primaryOf, scenario1, pHStep, pCO2Deviation,
      hco3Deviation, deviationOf, primaryStep, measuredCounter])
    (by rw [abs_of_nonneg (by norm_num)]; norm_num [COMP_TOLERANCE])

/-- C4: the pH step classifies below 7.35 as acidaemia, above 7.45 as
alkalaemia and the rest as normal pH; the scenario panel with pH exactly
7.45, pCO2 3.0 and HCO3 24 sits on the boundary, gets a normal pH, and
is still classified as respiratory alkalosis from the low pCO2. -/
theorem C4_pH_step (ph : ℚ) :
    (ph < 7.35 → pHStep ph = PHStatus.acidaemia)
    ∧ (ph > 7.45 → pHStep ph = PHStatus.alkalaemia)
    ∧ (7.35 ≤ ph ∧ ph ≤ 7.45 → pHStep ph = PHStatus.normalPH)
    ∧ pHStep 7.45 = PHStatus.normalPH
    ∧ (classify scenario3).primary = some Disorder.respiratory_alkalosis := by
  refine ⟨?_, ?_, ?_, ?_, ?_⟩
  · intro h; simp [pHStep, h]
  · intro h
    have hn : ¬ph < 7.35 := by linarith
    simp [pHStep, hn, h]
  · rintro ⟨h1, h2⟩
    have n1 : ¬ph < 7.35 := not_lt.mpr h1
    have n2 : ¬ph > 7.45 := not_lt.mpr h2
    simp [pHStep, n1, n2]
  · norm_num [pHStep]
  · norm_num [classify, classifyWith, primaryOf, scenario3, pHStep,
      pCO2Deviation, hco3Deviation, deviationOf, primaryStep]

/-- Witness for C4 at pH values 7.2, 7.5 and 7.4. -/
theorem C4_pH_step_witness :
    pHStep 7.2 = PHStatus.acidaemia ∧ pHStep 7.5 = PHStatus.alkalaemia
    ∧ pHStep 7.4 = PHStatus.normalPH :=
  ⟨(C4_pH_step 7.2).1 (by norm_num),
   (C4_pH_step 7.5).2.1 (by norm_num),
   (C4_pH_step 7.4).2.2.1 (by norm_num)⟩

/-- C5: the A-a gradient is computable exactly when pO2 and pCO2 are both
present and then equals the alveolar approximation minus the arterial
value; the alveolar value at pCO2 6 is 12.8 kPa, and the scenario with
pO2 8 and pCO2 6 gives a gradient of 4.8 kPa flagged above the normal
band. -/
theorem C5_aa_gradient (p : Panel) :
    ((aaGradient p).isSome ↔ p.pO2.isSome ∧ p.pCO2.isSome)
    ∧ (∀ po2 pco2, p.pO2 = some po2 → p.pCO2 = some pco2 →
        aaGradient p = some (PAO2 pco2 - po2))
    ∧ PAO2 6 = 12.8
    ∧ aaGradient scenario5 = some 4.8
    ∧ aaGradientFlag scenario5 = some BandFlag.above := by
  refine ⟨?_, ?_, ?_, ?_, ?_⟩
  · cases h1 : p.pO2 <;> cases h2 : p.pCO2 <;> simp [aaGradient, h1, h2]
  · intro po2 pco2 h1 h2
    simp [aaGradient, h1, h2]
  · norm_num [PAO2]
  · norm_num [aaGradient, scenario5, PAO2]
  · norm_num [aaGradientFlag, aaGradient, scenario5, PAO2, bandFlagOf,
      AA_NORMAL_LOW, AA_NORMAL_HIGH]

/-- Witness for C5 at the scenario panel. -/
theorem C5_aa_gradient_witness :
    aaGradient scenario5 = some (PAO2 6 - 8) :=
  (C5_aa_gradient scenario5).2.1 8 6 rfl rfl

/-- C6: validation succeeds, returning the panel unchanged, exactly when
every present bounded field lies within its plausibility bound (so
missing fields never fail it); every failure names a listed field, its
bound and the violating present value; and success never alters the
panel, so values are not clamped or defaulted. -/
theorem C6_validator (raw : Panel) :
    (validate_and_build_panel raw = Except.ok raw ↔
      ∀ b ∈ PLAUSIBILITY_BOUNDS, ∀ x, fieldValue raw b.1 = some x →
        b.2.1 ≤ x ∧ x ≤ b.2.2)
    ∧ (∀ e, validate_and_build_panel raw = Except.error e →
        (e.field, e.low, e.high) ∈ PLAUSIBILITY_BOUNDS ∧
        fieldValue raw e.field = some e.value ∧
        ¬(e.low ≤ e.value ∧ e.value ≤ e.high))
    ∧ (∀ q, validate_and_build_panel raw = Except.ok q → q = raw) := by
  refine ⟨?_, ?_, ?_⟩
  · cases hv : validateFields raw PLAUSIBILITY_BOUNDS with
    | error e =>
      simp only [validate_and_build_panel, hv]
      constructor
      · intro h; exact absurd h (by simp)
      · intro h
        have hok := (validateFields_ok_iff raw PLAUSIBILITY_BOUNDS).mpr h
        rw [hok] at hv
        exact absurd hv (by simp)
    | ok u =>
      cases u
      simp only [validate_and_build_panel, hv]
      constructor
      · intro _
        exact (validateFields_ok_iff raw PLAUSIBILITY_BOUNDS).mp hv
      · intro _; trivial
  · intro e he
    cases hv : validateFields raw PLAUSIBILITY_BOUNDS with
    | error e' =>
      simp only [validate_and_build_panel, hv, Except.error.injEq] at he
      subst he
      exact validateFields_error raw PLAUSIBILITY_BOUNDS e' hv
    | ok u =>
      cases u
      simp only [validate_and_build_panel, hv] at he
      exact absurd he (by simp)
  · intro q hq
    cases hv : validateFields raw PLAUSIBILITY_BOUNDS with
    | error e' =>
      simp only [validate_and_build_panel, hv] at hq
      exact absurd hq (by simp)
    | ok u =>
      cases u
      simp only [validate_and_build_panel, hv, Except.ok.injEq] at hq
      exact hq.symm

/-- Witness for C6: the all-missing panel validates to itself, and the
panel with pH 8 fails naming the pH field and its bound. -/
theorem C6_validator_witness :
    validate_and_build_panel emptyPanel = Except.ok emptyPanel
    ∧ ((("pH" : String), (6.8 : ℚ), (7.8 : ℚ)) ∈ PLAUSIBILITY_BOUNDS
        ∧ fieldValue badPanel "pH" = some 8
        ∧ ¬((6.8 : ℚ) ≤ 8 ∧ (8 : ℚ) ≤ 7.8)) :=
  ⟨(C6_validator emptyPanel).1.mpr (by
      intro b hb x hx
      exfalso
      fin_cases hb <;> simp [fieldValue, emptyPanel] at hx),
   (C6_validator badPanel).2.1 ⟨"pH", 6.8, 7.8, 8⟩ (by
      norm_num [validate_and_build_panel, validateFields, PLAUSIBILITY_BOUNDS,
        checkBound, fieldValue, badPanel])⟩

/-- C7: interpretation is a pure function of the panel — a call returns
the session state unchanged, and a second call on the same panel after
the first returns a result identical to the first. -/
theorem C7_interpret_deterministic (s : SessionState) (p : Panel) :
    (interpretCall s p).1 = (interpretCall (interpretCall s p).2 p).1
    ∧ (interpretCall s p).2 = s :=
  ⟨rfl, rfl⟩

/-- Counterexample for C8: the bounds enforced at manual entry for pH are
6.8 to 7.8, while the normal range table holds 7.35 to 7.45 for pH, so
the table consulted for display flagging is not the mapping that bounds
entry validation: pH 6.9 is accepted at entry yet flagged abnormal. -/
theorem C8_normal_ranges_counterexample :
    entryAccepts "pH" 6.9 = true
    ∧ displayIsNormal "pH" 6.9 = false
    ∧ List.lookup "pH" PLAUSIBILITY_BOUNDS = some (6.8, 7.8)
    ∧ List.lookup "pH" NORMAL_RANGES = some (7.35, 7.45)
    ∧ List.lookup "pH" PLAUSIBILITY_BOUNDS ≠ List.lookup "pH" NORMAL_RANGES := by
  refine ⟨?_, ?_, rfl, rfl, ?_⟩
  · norm_num [entryAccepts, PLAUSIBILITY_BOUNDS]
  · norm_num [displayIsNormal, NORMAL_RANGES]
  · rw [show List.lookup "pH" PLAUSIBILITY_BOUNDS = some (6.8, 7.8) from rfl,
      show List.lookup "pH" NORMAL_RANGES = some (7.35, 7.45) from rfl]
    norm_num

/-- C8 amended: the normal range table is a single fixed read-only
mapping consulted for the in-or-out-of-normal-range flagging of displayed
values; plausibility validation at entry uses separate, strictly wider
hardcoded bounds, each containing the corresponding normal range. -/
theorem C8_normal_ranges_amended (key : String) (v : ℚ) :
    (∀ b, List.lookup key NORMAL_RANGES = some b →
      (displayIsNormal key v = true ↔ b.1 ≤ v ∧ v ≤ b.2))
    ∧ (List.lookup key NORMAL_RANGES = none → displayIsNormal key v = true)
    ∧ (∀ b ∈ PLAUSIBILITY_BOUNDS, ∀ nb, List.lookup b.1 NORMAL_RANGES = some nb →
        b.2.1 ≤ nb.1 ∧ nb.2 ≤ b.2.2) := by
  refine ⟨?_, ?_, ?_⟩
  · intro b hb
    simp only [displayIsNormal, hb, decide_eq_true_eq]
  · intro hb
    simp only [displayIsNormal, hb]
  · intro b hb nb hnb
    fin_cases hb <;>
      simp only [show List.lookup "pH" NORMAL_RANGES = some (7.35, 7.45) from rfl,
        show List.lookup "pCO2" NORMAL_RANGES = some (4.5, 6.0) from rfl,
        show List.lookup "HCO3" NORMAL_RANGES = some (22, 28) from rfl,
        show List.lookup "pO2" NORMAL_RANGES = some (11, 13) from rfl,
        show List.lookup "base_excess" NORMAL_RANGES = some (-2, 2) from rfl,
        show List.lookup "Na" NORMAL_RANGES = some (135, 145) from rfl,
        show List.lookup "Cl" NORMAL_RANGES = some (98, 107) from rfl,
        Option.some.injEq] at hnb <;>
    subst hnb <;> norm_num

/-- Witness for C8 amended at the pH entry of the table. -/
theorem C8_normal_ranges_amended_witness : displayIsNormal "pH" 7.4 = true :=
  ((C8_normal_ranges_amended "pH" 7.4).1 (7.35, 7.45) rfl).mpr (by norm_num)

/-- C9: the extraction function is total over its dictionary result — an
exception during the call yields the empty dictionary, a response with no
brace-delimited substring yields the empty dictionary, a parsing failure
on the matched substring yields the empty dictionary, and otherwise the
parsed dictionary is returned. -/
theorem C9_extract_total (outcome : ApiOutcome)
    (jsonLoads : String → Except String ExtractedDict) :
    (∀ msg, outcome = ApiOutcome.exn msg →
      extract_values_from_text outcome jsonLoads = [])
    ∧ (∀ t, outcome = ApiOutcome.ok t → jsonSearch t = none →
      extract_values_from_text outcome jsonLoads = [])
    ∧ (∀ t s msg, outcome = ApiOutcome.ok t → jsonSearch t = some s →
      jsonLoads s = Except.error msg →
      extract_values_from_text outcome jsonLoads = [])
    ∧ (∀ t s d, outcome = ApiOutcome.ok t → jsonSearch t = some s →
      jsonLoads s = Except.ok d →
      extract_values_from_text outcome jsonLoads = d) := by
  refine ⟨?_, ?_, ?_, ?_⟩
  · intro msg h1
    subst h1; rfl
  · intro t h1 h2
    subst h1; simp [extract_values_from_text, h2]
  · intro t s msg h1 h2 h3
    subst h1; simp [extract_values_from_text, h2, h3]
  · intro t s d h1 h2 h3
    subst h1; simp [extract_values_from_text, h2, h3]

/-- Witness for C9 on an exception, a braceless response, and a response
holding a brace-delimited substring. -/
theorem C9_extract_total_witness :
    extract_values_from_text (ApiOutcome.exn "boom") (fun _ => Except.ok []) = []
    ∧ extract_values_from_text (ApiOutcome.ok "no json here")
        (fun _ => Except.ok []) = []
    ∧ extract_values_from_text (ApiOutcome.ok "x \x7b a:1 \x7d y")
        (fun s => Except.ok [(s, none)]) = [("\x7b a:1 \x7d", none)] :=
  ⟨(C9_extract_total (ApiOutcome.exn "boom") (fun _ => Except.ok [])).1
      "boom" rfl,
   (C9_extract_total (ApiOutcome.ok "no json here") (fun _ => Except.ok [])).2.1
      "no json here" rfl rfl,
   (C9_extract_total (ApiOutcome.ok "x \x7b a:1 \x7d y")
      (fun s => Except.ok [(s, none)])).2.2.2
      "x \x7b a:1 \x7d y" "\x7b a:1 \x7d" [("\x7b a:1 \x7d", none)] rfl rfl rfl⟩

/-- C10: the manual-entry dictionary has exactly the seven keys pH, pCO2,
HCO3, pO2, base excess, Na and Cl, and never the keys K or albumin. -/
theorem C10_manual_entry_keys (pH pCO2 HCO3 pO2 base_excess Na Cl : ℚ) :
    (manualEntryValues pH pCO2 HCO3 pO2 base_excess Na Cl).map Prod.fst =
      ["pH", "pCO2", "HCO3", "pO2", "base_excess", "Na", "Cl"]
    ∧ "K" ∉ (manualEntryValues pH pCO2 HCO3 pO2 base_excess Na Cl).map Prod.fst
    ∧ "albumin" ∉
        (manualEntryValues pH pCO2 HCO3 pO2 base_excess Na Cl).map Prod.fst := by
  have hmap : (manualEntryValues pH pCO2 HCO3 pO2 base_excess Na Cl).map Prod.fst =
      ["pH", "pCO2", "HCO3", "pO2", "base_excess", "Na", "Cl"] := rfl
  refine ⟨hmap, ?_, ?_⟩ <;> rw [hmap] <;> decide

end ABG
